import Mathlib

/-!
Verification of the `DockerNode` lifecycle adapter
(`lib/topology_docker/node.py`).

The component is a thin, sequential adapter over a container-runtime
client.  We embed it shallowly: the runtime client is an oracle
(`Runtime`) mapping each call to either a success value or an error, and
every method of `DockerNode` becomes a function from the node state to a
triple `(result, new state, trace)` where the trace lists the external
calls issued, in order, up to and including the first failing one.
Errors returned by the oracle pass through unchanged (`PyErr`), matching
the component's lack of any error handling.
-/

/-- Errors surfaced by the component: a mapping lookup failure
(Python `KeyError`) or an error raised by the runtime client or the
shell-execution contract. -/
inductive PyErr where
  | keyError : String → PyErr
  | apiError : String → PyErr
deriving Repr, DecidableEq

/-- Host configuration built by `create_host_config`: privileged flag,
network mode and optional bind mounts. -/
structure HostConfig where
  privileged : Bool
  network_mode : String
  binds : Option (List String)
deriving Repr, DecidableEq

/-- External calls the component can issue, recorded in traces. -/
inductive Event where
  | create_host_config : Bool → String → Option (List String) → Event
  | create_container : String → String → String → Bool → Bool → HostConfig → Event
  | start : String → Event
  | inspect : String → Event
  | stop : String → Event
  | wait : String → Event
  | remove : String → Event
  | pause : String → Event
  | unpause : String → Event
  | exec : String → String → Event
deriving Repr, DecidableEq

/-- Oracle for the container-runtime client and the node's shell-execution
contract: each call either succeeds with a value or fails with a `PyErr`
that the component must propagate unmodified. -/
structure Runtime where
  create_container_resp :
    String → String → String → Bool → Bool → HostConfig → Except PyErr String
  start_resp : String → Except PyErr Unit
  inspect_pid : String → Except PyErr Int
  stop_resp : String → Except PyErr Unit
  wait_resp : String → Except PyErr Unit
  remove_resp : String → Except PyErr Unit
  pause_resp : String → Except PyErr Unit
  unpause_resp : String → Except PyErr Unit
  exec_resp : String → String → Except PyErr Unit

/-- State of a `DockerNode`: identifier, image, command, the runtime
container id (`container_id`), the recorded main-process id (`_pid`,
`none` until `start` succeeds), the host configuration, and the `ports`
registry mapping port labels to interface names (an association list in
iteration order, populated by the owning framework). -/
structure DockerNode where
  identifier : String
  image : String
  command : String
  container_id : String
  pid : Option Int
  host_config : HostConfig
  ports : List (String × String)
deriving Repr, DecidableEq

/-- A specification bidirectional port (`pynml.nml.BidirectionalPort`):
its identifier and its metadata dictionary. -/
structure BiPort where
  identifier : String
  metadata : List (String × String)
deriving Repr, DecidableEq

/-- A specification node (`pynml.nml.Node`), passed to the notify hooks
and unused by their bodies. -/
structure SpecNode where
  identifier : String
deriving Repr, DecidableEq

/-- A specification bidirectional link (`pynml.nml.BidirectionalLink`),
passed to `notify_add_bilink` and unused by its body. -/
structure BiLink where
  identifier : String
deriving Repr, DecidableEq

/-- Constructor `DockerNode.__init__`: builds the host configuration
(privileged, with the given network mode and binds), then requests
creation of a detached, tty container named `identifier_instanceid`
running `command` on `image`, recording the returned id in
`container_id`.  `instance_id` stands for Python's `id(self)`, the
value unique to this in-process instance. -/
def DockerNode.init (rt : Runtime) (identifier image command : String)
    (binds : Option (List String)) (network_mode : String) (instance_id : Nat) :
    Except PyErr DockerNode × List Event :=
  match rt.create_container_resp image command
      (identifier ++ "_" ++ toString instance_id) true true
      ⟨true, network_mode, binds⟩ with
  | .error e =>
      (.error e,
        [.create_host_config true network_mode binds,
         .create_container image command
           (identifier ++ "_" ++ toString instance_id) true true
           ⟨true, network_mode, binds⟩])
  | .ok cid =>
      (.ok ⟨identifier, image, command, cid, none, ⟨true, network_mode, binds⟩, []⟩,
        [.create_host_config true network_mode binds,
         .create_container image command
           (identifier ++ "_" ++ toString instance_id) true true
           ⟨true, network_mode, binds⟩])

/-- Method `notify_add_biport`: returns the biport's metadata entry for
the key "label" when present, otherwise the biport's identifier; the
node state is returned unchanged (the body performs no assignment). -/
def DockerNode.notify_add_biport (n : DockerNode) (node : SpecNode)
    (biport : BiPort) : String × DockerNode :=
  ((biport.metadata.lookup "label").getD biport.identifier, n)

/-- Method `notify_add_bilink`: empty body, the node is unchanged. -/
def DockerNode.notify_add_bilink (n : DockerNode) (nodeport : SpecNode × BiPort)
    (bilink : BiLink) : DockerNode :=
  n

/-- Method `notify_post_build`: empty body, the node is unchanged. -/
def DockerNode.notify_post_build (n : DockerNode) : DockerNode :=
  n

/-- Method `start`: starts `container_id`, then inspects it and records
the reported process id into `_pid`. -/
def DockerNode.start (rt : Runtime) (n : DockerNode) :
    Except PyErr Unit × DockerNode × List Event :=
  match rt.start_resp n.container_id with
  | .error e => (.error e, n, [.start n.container_id])
  | .ok _ =>
      match rt.inspect_pid n.container_id with
      | .error e => (.error e, n, [.start n.container_id, .inspect n.container_id])
      | .ok p =>
          (.ok (), { n with pid := some p },
            [.start n.container_id, .inspect n.container_id])

/-- Method `stop`: stops `container_id`, waits for it to exit, then
removes it, aborting at the first failing call. -/
def DockerNode.stop (rt : Runtime) (n : DockerNode) :
    Except PyErr Unit × DockerNode × List Event :=
  match rt.stop_resp n.container_id with
  | .error e => (.error e, n, [.stop n.container_id])
  | .ok _ =>
      match rt.wait_resp n.container_id with
      | .error e => (.error e, n, [.stop n.container_id, .wait n.container_id])
      | .ok _ =>
          match rt.remove_resp n.container_id with
          | .error e =>
              (.error e, n,
                [.stop n.container_id, .wait n.container_id, .remove n.container_id])
          | .ok _ =>
              (.ok (), n,
                [.stop n.container_id, .wait n.container_id, .remove n.container_id])

/-- The shell command built by `port_state`:
`ip link set dev <iface> <up|down>`. -/
def ipLinkCmd (iface : String) (state : Bool) : String :=
  "ip link set dev " ++ iface ++ " " ++ (if state then "up" else "down")

/-- Method `port_state`: looks the label up in `ports` (a missing label
raises `KeyError` before any command is issued), then executes the
`ip link` command through the node's bash shell. -/
def DockerNode.port_state (rt : Runtime) (n : DockerNode) (portlbl : String)
    (state : Bool) : Except PyErr Unit × DockerNode × List Event :=
  match n.ports.lookup portlbl with
  | none => (.error (.keyError portlbl), n, [])
  | some iface =>
      match rt.exec_resp (ipLinkCmd iface state) "bash" with
      | .error e => (.error e, n, [.exec (ipLinkCmd iface state) "bash"])
      | .ok _ => (.ok (), n, [.exec (ipLinkCmd iface state) "bash"])

/-- The `for portlbl in self.ports` loops of `pause` and `unpause`:
calls `port_state` on each label in iteration order, aborting at the
first failure. -/
def portsLoop (rt : Runtime) (state : Bool) :
    DockerNode → List String → Except PyErr Unit × DockerNode × List Event
  | n, [] => (.ok (), n, [])
  | n, portlbl :: rest =>
      match DockerNode.port_state rt n portlbl state with
      | (.error e, n', tr) => (.error e, n', tr)
      | (.ok _, n', tr) =>
          match portsLoop rt state n' rest with
          | (r, n'', tr') => (r, n'', tr ++ tr')

/-- Method `pause`: brings every port in `ports` down, then pauses the
container. -/
def DockerNode.pause (rt : Runtime) (n : DockerNode) :
    Except PyErr Unit × DockerNode × List Event :=
  match portsLoop rt false n (n.ports.map Prod.fst) with
  | (.error e, n', tr) => (.error e, n', tr)
  | (.ok _, n', tr) =>
      match rt.pause_resp n'.container_id with
      | .error e => (.error e, n', tr ++ [.pause n'.container_id])
      | .ok _ => (.ok (), n', tr ++ [.pause n'.container_id])

/-- Method `unpause`: unpauses the container, then brings every port in
`ports` back up. -/
def DockerNode.unpause (rt : Runtime) (n : DockerNode) :
    Except PyErr Unit × DockerNode × List Event :=
  match rt.unpause_resp n.container_id with
  | .error e => (.error e, n, [.unpause n.container_id])
  | .ok _ =>
      match portsLoop rt true n (n.ports.map Prod.fst) with
      | (r, n', tr) => (r, n', .unpause n.container_id :: tr)

/-- Conjunction of the equalities saying the configuration fields fixed
at construction are untouched. -/
def unchangedConfig (n n' : DockerNode) : Prop :=
  n'.container_id = n.container_id ∧ n'.image = n.image ∧
    n'.command = n.command ∧ n'.host_config = n.host_config

/-! Concrete runtime oracles and node states, used to evaluate the
operations on closed inputs. -/

/-- A runtime oracle all of whose calls succeed. -/
def rtOk : Runtime where
  create_container_resp := fun _ _ _ _ _ _ => .ok "cid0"
  start_resp := fun _ => .ok ()
  inspect_pid := fun _ => .ok 4242
  stop_resp := fun _ => .ok ()
  wait_resp := fun _ => .ok ()
  remove_resp := fun _ => .ok ()
  pause_resp := fun _ => .ok ()
  unpause_resp := fun _ => .ok ()
  exec_resp := fun _ _ => .ok ()

/-- A sample error value returned by failing oracles. -/
def errBoom : PyErr := .apiError "boom"

/-- A runtime oracle all of whose calls fail with `errBoom`. -/
def rtFail : Runtime where
  create_container_resp := fun _ _ _ _ _ _ => .error errBoom
  start_resp := fun _ => .error errBoom
  inspect_pid := fun _ => .error errBoom
  stop_resp := fun _ => .error errBoom
  wait_resp := fun _ => .error errBoom
  remove_resp := fun _ => .error errBoom
  pause_resp := fun _ => .error errBoom
  unpause_resp := fun _ => .error errBoom
  exec_resp := fun _ _ => .error errBoom

/-- All calls succeed except `wait`. -/
def rtWaitFail : Runtime :=
  { rtOk with wait_resp := fun _ => .error errBoom }

/-- All calls succeed except `remove_container`. -/
def rtRemoveFail : Runtime :=
  { rtOk with remove_resp := fun _ => .error errBoom }

/-- All calls succeed except `inspect_container`. -/
def rtInspectFail : Runtime :=
  { rtOk with inspect_pid := fun _ => .error errBoom }

/-- All calls succeed except `pause`. -/
def rtPauseFail : Runtime :=
  { rtOk with pause_resp := fun _ => .error errBoom }

/-- All calls succeed except the shell commands toggling `eth2`. -/
def rtExecEth2Fail : Runtime :=
  { rtOk with
      exec_resp := fun c _ =>
        if c = "ip link set dev eth2 down" ∨ c = "ip link set dev eth2 up" then
          .error errBoom
        else
          .ok () }

/-- A sample node with two registered ports. -/
def n0 : DockerNode where
  identifier := "n1"
  image := "ubuntu"
  command := "bash"
  container_id := "cid0"
  pid := none
  host_config := ⟨true, "none", none⟩
  ports := [("p1", "eth1"), ("p2", "eth2")]

/-- The sample node with no registered ports. -/
def nEmpty : DockerNode :=
  { n0 with ports := [] }

/-- A sample biport whose metadata carries a label. -/
def bpLabeled : BiPort := ⟨"p7", [("label", "eth9")]⟩

/-- A sample biport without metadata. -/
def bpPlain : BiPort := ⟨"p7", []⟩

/-- A sample specification node. -/
def sn0 : SpecNode := ⟨"s1"⟩

/-! Helper lemmas about the node state threaded through the loops. -/

theorem port_state_node_eq (rt : Runtime) (n : DockerNode) (portlbl : String)
    (state : Bool) : (DockerNode.port_state rt n portlbl state).2.1 = n := by
  unfold DockerNode.port_state
  split
  · rfl
  · split <;> rfl

theorem portsLoop_node_eq (rt : Runtime) (state : Bool) :
    ∀ (labels : List String) (n : DockerNode),
      (portsLoop rt state n labels).2.1 = n := by
  intro labels
  induction labels with
  | nil => intro n; rfl
  | cons lbl rest ih =>
    intro n
    unfold portsLoop
    split
    next e n' tr heq =>
      have h1 := port_state_node_eq rt n lbl state
      rw [heq] at h1
      simpa using h1
    next u n' tr heq =>
      have h1 := port_state_node_eq rt n lbl state
      rw [heq] at h1
      split
      next r n'' tr' heq2 =>
        have h2 := ih n'
        rw [heq2] at h2
        simp at h1 h2 ⊢
        rw [h2, h1]

theorem pause_node_eq (rt : Runtime) (n : DockerNode) :
    (DockerNode.pause rt n).2.1 = n := by
  unfold DockerNode.pause
  split
  next e n' tr heq =>
    have h1 := portsLoop_node_eq rt false (n.ports.map Prod.fst) n
    rw [heq] at h1
    simpa using h1
  next u n' tr heq =>
    have h1 := portsLoop_node_eq rt false (n.ports.map Prod.fst) n
    rw [heq] at h1
    simp at h1
    split <;> simpa using h1

theorem unpause_node_eq (rt : Runtime) (n : DockerNode) :
    (DockerNode.unpause rt n).2.1 = n := by
  unfold DockerNode.unpause
  split
  · rfl
  · split
    next r n' tr heq =>
      have h1 := portsLoop_node_eq rt true (n.ports.map Prod.fst) n
      rw [heq] at h1
      simpa using h1

theorem stop_node_eq (rt : Runtime) (n : DockerNode) :
    (DockerNode.stop rt n).2.1 = n := by
  unfold DockerNode.stop
  split
  · rfl
  · split
    · rfl
    · split <;> rfl

/-! Helper lemmas about association-list lookup and the loop traces. -/

theorem lookup_eq_of_mem :
    ∀ {l : List (String × String)} {k v : String},
      (l.map Prod.fst).Nodup → (k, v) ∈ l → l.lookup k = some v := by
  intro l
  induction l with
  | nil => intro k v _ hm; cases hm
  | cons a tl ih =>
    intro k v hnd hm
    rw [List.map_cons, List.nodup_cons] at hnd
    rcases List.mem_cons.mp hm with heq | hmem
    · cases heq
      simp [List.lookup]
    · have hk : (k == a.1) = false := by
        refine beq_eq_false_iff_ne.mpr ?_
        intro hkk
        exact hnd.1 (hkk ▸ List.mem_map_of_mem Prod.fst hmem)
      obtain ⟨a1, a2⟩ := a
      simp only [List.lookup, hk]
      exact ih hnd.2 hmem

theorem portsLoop_trace (rt : Runtime) (state : Bool)
    (hex : ∀ c s, rt.exec_resp c s = .ok ()) :
    ∀ (labels : List String) (n : DockerNode),
      (∀ lbl ∈ labels, (n.ports.lookup lbl).isSome) →
      portsLoop rt state n labels =
        (.ok (), n,
          labels.map fun lbl =>
            Event.exec (ipLinkCmd ((n.ports.lookup lbl).getD "") state) "bash") := by
  intro labels
  induction labels with
  | nil => intro n _; rfl
  | cons lbl rest ih =>
    intro n h
    obtain ⟨iface, hif⟩ :=
      Option.isSome_iff_exists.mp (h lbl (List.mem_cons_self lbl rest))
    have hrec := ih n (fun l hl => h l (List.mem_cons_of_mem _ hl))
    simp only [portsLoop, DockerNode.port_state, hif, hex, hrec]
    simp [hif]

theorem ipLinkCmd_true (iface : String) :
    ipLinkCmd iface true = "ip link set dev " ++ iface ++ " up" := by
  unfold ipLinkCmd
  rw [String.append_assoc]
  rfl

theorem ipLinkCmd_false (iface : String) :
    ipLinkCmd iface false = "ip link set dev " ++ iface ++ " down" := by
  unfold ipLinkCmd
  rw [String.append_assoc]
  rfl

/-- C1: `notify_add_biport` returns the string stored under the key
"label" of the biport's metadata when that key is present, and otherwise
returns the biport's identifier; in either case the node state is
unchanged. -/
theorem notify_add_biport_label_or_identifier (n : DockerNode) (node : SpecNode)
    (bp : BiPort) :
    (∀ v, bp.metadata.lookup "label" = some v →
      (n.notify_add_biport node bp).1 = v) ∧
    (bp.metadata.lookup "label" = none →
      (n.notify_add_biport node bp).1 = bp.identifier) ∧
    (n.notify_add_biport node bp).2 = n := by
  refine ⟨?_, ?_, rfl⟩
  · intro v hv
    simp [DockerNode.notify_add_biport, hv]
  · intro hn
    simp [DockerNode.notify_add_biport, hn]

/-- C2: `stop` issues exactly the three runtime calls stop, wait, remove
on `container_id`, in that order, aborting at the first failure: if wait
fails remove is never attempted, and if stop fails neither wait nor
remove is attempted. -/
theorem stop_issues_stop_wait_remove_in_order (rt : Runtime) (n : DockerNode) :
    (rt.stop_resp n.container_id = .ok () → rt.wait_resp n.container_id = .ok () →
      rt.remove_resp n.container_id = .ok () →
      DockerNode.stop rt n =
        (.ok (), n,
          [.stop n.container_id, .wait n.container_id, .remove n.container_id])) ∧
    (∀ e, rt.stop_resp n.container_id = .ok () →
      rt.wait_resp n.container_id = .ok () →
      rt.remove_resp n.container_id = .error e →
      DockerNode.stop rt n =
        (.error e, n,
          [.stop n.container_id, .wait n.container_id, .remove n.container_id])) ∧
    (∀ e, rt.stop_resp n.container_id = .ok () →
      rt.wait_resp n.container_id = .error e →
      DockerNode.stop rt n =
        (.error e, n, [.stop n.container_id, .wait n.container_id])) ∧
    (∀ e, rt.stop_resp n.container_id = .error e →
      DockerNode.stop rt n = (.error e, n, [.stop n.container_id])) := by
  refine ⟨?_, ?_, ?_, ?_⟩ <;> intros <;> simp_all [DockerNode.stop]

/-- C5: `port_state` on a label present in `ports` executes exactly one
shell command, `ip link set dev <iface> up` for state `true` and
`ip link set dev <iface> down` for state `false`; on a label not present
in `ports` it fails with a `KeyError` before issuing any command. -/
theorem port_state_single_command_or_lookup_failure (rt : Runtime)
    (n : DockerNode) (lbl : String) :
    (∀ iface, n.ports.lookup lbl = some iface →
      (DockerNode.port_state rt n lbl true).2.2 =
        [Event.exec ("ip link set dev " ++ iface ++ " up") "bash"] ∧
      (DockerNode.port_state rt n lbl false).2.2 =
        [Event.exec ("ip link set dev " ++ iface ++ " down") "bash"]) ∧
    (n.ports.lookup lbl = none →
      DockerNode.port_state rt n lbl true = (.error (.keyError lbl), n, []) ∧
      DockerNode.port_state rt n lbl false = (.error (.keyError lbl), n, [])) := by
  constructor
  · intro iface hif
    constructor
    · simp only [DockerNode.port_state, hif]
      cases rt.exec_resp (ipLinkCmd iface true) "bash" <;>
        simp [ipLinkCmd_true]
    · simp only [DockerNode.port_state, hif]
      cases rt.exec_resp (ipLinkCmd iface false) "bash" <;>
        simp [ipLinkCmd_false]
  · intro hn
    constructor <;> simp [DockerNode.port_state, hn]

/-- C6: on a successful `start`, the recorded `pid` equals the process
id the runtime's inspect reports for `container_id`, and the start
request is issued before the inspect query. -/
theorem start_records_inspected_pid (rt : Runtime) (n : DockerNode) (p : Int)
    (hs : rt.start_resp n.container_id = .ok ())
    (hi : rt.inspect_pid n.container_id = .ok p) :
    DockerNode.start rt n =
      (.ok (), { n with pid := some p },
        [Event.start n.container_id, Event.inspect n.container_id]) := by
  simp [DockerNode.start, hs, hi]

/-- C3: with N entries in `ports`, a successful `pause` issues exactly N
interface-down commands, one per port in iteration order of the mapping,
all before the single runtime pause call on `container_id`. -/
theorem pause_downs_all_ports_before_pause (rt : Runtime) (n : DockerNode)
    (hnd : (n.ports.map Prod.fst).Nodup)
    (hex : ∀ c s, rt.exec_resp c s = .ok ())
    (hp : rt.pause_resp n.container_id = .ok ()) :
    DockerNode.pause rt n =
      (.ok (), n,
        (n.ports.map fun p => Event.exec (ipLinkCmd p.2 false) "bash") ++
          [Event.pause n.container_id]) := by
  have hall : ∀ lbl ∈ n.ports.map Prod.fst, (n.ports.lookup lbl).isSome := by
    intro lbl hl
    obtain ⟨p, hp', hpe⟩ := List.mem_map.mp hl
    rw [← hpe, lookup_eq_of_mem hnd (by simpa using hp')]
    rfl
  have htr := portsLoop_trace rt false hex (n.ports.map Prod.fst) n hall
  have hmap : (n.ports.map Prod.fst).map
      (fun lbl =>
        Event.exec (ipLinkCmd ((n.ports.lookup lbl).getD "") false) "bash") =
      n.ports.map fun p => Event.exec (ipLinkCmd p.2 false) "bash" := by
    rw [List.map_map]
    refine List.map_congr_left ?_
    intro p hp'
    simp [lookup_eq_of_mem hnd (by simpa using hp')]
  simp only [DockerNode.pause, htr]
  simp [hp, hmap]

/-- C4: with N entries in `ports`, a successful `unpause` issues the
single runtime unpause call on `container_id` first, and only afterwards
exactly N interface-up commands, one per port in iteration order of the
mapping. -/
theorem unpause_unpauses_before_upping_ports (rt : Runtime) (n : DockerNode)
    (hnd : (n.ports.map Prod.fst).Nodup)
    (hex : ∀ c s, rt.exec_resp c s = .ok ())
    (hu : rt.unpause_resp n.container_id = .ok ()) :
    DockerNode.unpause rt n =
      (.ok (), n,
        Event.unpause n.container_id ::
          (n.ports.map fun p => Event.exec (ipLinkCmd p.2 true) "bash")) := by
  have hall : ∀ lbl ∈ n.ports.map Prod.fst, (n.ports.lookup lbl).isSome := by
    intro lbl hl
    obtain ⟨p, hp', hpe⟩ := List.mem_map.mp hl
    rw [← hpe, lookup_eq_of_mem hnd (by simpa using hp')]
    rfl
  have htr := portsLoop_trace rt true hex (n.ports.map Prod.fst) n hall
  have hmap : (n.ports.map Prod.fst).map
      (fun lbl =>
        Event.exec (ipLinkCmd ((n.ports.lookup lbl).getD "") true) "bash") =
      n.ports.map fun p => Event.exec (ipLinkCmd p.2 true) "bash" := by
    rw [List.map_map]
    refine List.map_congr_left ?_
    intro p hp'
    simp [lookup_eq_of_mem hnd (by simpa using hp')]
  simp only [DockerNode.unpause, hu, htr]
  simp [hmap]

/-- C7: a successful construction builds a privileged host configuration
with the given network mode and binds, requests creation of a detached,
tty container named by combining the identifier with the in-process
instance value, running the given command on the given image, populates
`container_id` from the runtime's response, and never issues a start
call. -/
theorem construction_creates_container_without_start
    (rt : Runtime) (identifier image command : String)
    (binds : Option (List String)) (network_mode : String) (instance_id : Nat)
    (cid : String)
    (hc : rt.create_container_resp image command
        (identifier ++ "_" ++ toString instance_id) true true
        ⟨true, network_mode, binds⟩ = .ok cid) :
    DockerNode.init rt identifier image command binds network_mode instance_id =
      (.ok ⟨identifier, image, command, cid, none,
          ⟨true, network_mode, binds⟩, []⟩,
        [Event.create_host_config true network_mode binds,
         Event.create_container image command
           (identifier ++ "_" ++ toString instance_id) true true
           ⟨true, network_mode, binds⟩]) ∧
    ∀ c, Event.start c ∉
      (DockerNode.init rt identifier image command binds network_mode
        instance_id).2 := by
  constructor
  · simp [DockerNode.init, hc]
  · intro c
    simp [DockerNode.init, hc]

theorem ports_lookup_isSome (n : DockerNode)
    (hnd : (n.ports.map Prod.fst).Nodup) :
    ∀ lbl ∈ n.ports.map Prod.fst, (n.ports.lookup lbl).isSome := by
  intro lbl hl
  obtain ⟨p, hp', hpe⟩ := List.mem_map.mp hl
  rw [← hpe, lookup_eq_of_mem hnd (by simpa using hp')]
  rfl

theorem ports_map_lookup_eq (n : DockerNode) (state : Bool)
    (hnd : (n.ports.map Prod.fst).Nodup) :
    (n.ports.map Prod.fst).map
      (fun lbl =>
        Event.exec (ipLinkCmd ((n.ports.lookup lbl).getD "") state) "bash") =
      n.ports.map fun p => Event.exec (ipLinkCmd p.2 state) "bash" := by
  rw [List.map_map]
  refine List.map_congr_left ?_
  intro p hp'
  simp [lookup_eq_of_mem hnd (by simpa using hp')]

theorem portsLoop_abort_aux (rt : Runtime) (state : Bool) (n : DockerNode)
    (lbl iface : String) (e : PyErr)
    (hlbl : n.ports.lookup lbl = some iface)
    (hfail : rt.exec_resp (ipLinkCmd iface state) "bash" = .error e) :
    ∀ (labels rest : List String),
      (∀ l ∈ labels, ∃ ifc, n.ports.lookup l = some ifc ∧
        rt.exec_resp (ipLinkCmd ifc state) "bash" = .ok ()) →
      portsLoop rt state n (labels ++ lbl :: rest) =
        (.error e, n,
          (labels.map fun l =>
            Event.exec (ipLinkCmd ((n.ports.lookup l).getD "") state) "bash") ++
            [Event.exec (ipLinkCmd iface state) "bash"]) := by
  intro labels
  induction labels with
  | nil =>
    intro rest _
    simp only [List.nil_append, portsLoop, DockerNode.port_state, hlbl, hfail]
    simp
  | cons l ls ih =>
    intro rest h
    obtain ⟨ifc, hl, hok⟩ := h l (List.mem_cons_self l ls)
    have hrec := ih rest (fun x hx => h x (List.mem_cons_of_mem _ hx))
    simp only [List.cons_append, portsLoop, DockerNode.port_state, hl, hok, hrec]
    simp [hl, hrec]

theorem pause_abort_in_loop (rt : Runtime) (n : DockerNode)
    (pre : List (String × String)) (lbl iface : String)
    (post : List (String × String)) (e : PyErr)
    (hsplit : n.ports = pre ++ (lbl, iface) :: post)
    (hnd : (n.ports.map Prod.fst).Nodup)
    (hpre : ∀ p ∈ pre, rt.exec_resp (ipLinkCmd p.2 false) "bash" = .ok ())
    (hfail : rt.exec_resp (ipLinkCmd iface false) "bash" = .error e) :
    DockerNode.pause rt n =
      (.error e, n,
        (pre.map fun p => Event.exec (ipLinkCmd p.2 false) "bash") ++
          [Event.exec (ipLinkCmd iface false) "bash"]) := by
  have hmem : ∀ p ∈ pre, p ∈ n.ports := by
    intro p hp
    rw [hsplit]
    exact List.mem_append_left _ hp
  have hlbl : n.ports.lookup lbl = some iface := by
    refine lookup_eq_of_mem hnd ?_
    rw [hsplit]
    exact List.mem_append_right _ (List.mem_cons_self _ _)
  have hpre' : ∀ l ∈ pre.map Prod.fst, ∃ ifc, n.ports.lookup l = some ifc ∧
      rt.exec_resp (ipLinkCmd ifc false) "bash" = .ok () := by
    intro l hl
    obtain ⟨p, hp, hpe⟩ := List.mem_map.mp hl
    refine ⟨p.2, ?_, hpre p hp⟩
    rw [← hpe]
    exact lookup_eq_of_mem hnd (by simpa using hmem p hp)
  have hloop := portsLoop_abort_aux rt false n lbl iface e hlbl hfail
    (pre.map Prod.fst) (post.map Prod.fst) hpre'
  have hsplit' : n.ports.map Prod.fst =
      pre.map Prod.fst ++ lbl :: post.map Prod.fst := by
    rw [hsplit]
    simp
  rw [← hsplit'] at hloop
  have hmap : (pre.map Prod.fst).map
      (fun l =>
        Event.exec (ipLinkCmd ((n.ports.lookup l).getD "") false) "bash") =
      pre.map fun p => Event.exec (ipLinkCmd p.2 false) "bash" := by
    rw [List.map_map]
    refine List.map_congr_left ?_
    intro p hp
    simp [lookup_eq_of_mem hnd (by simpa using hmem p hp)]
  rw [hmap] at hloop
  simp only [DockerNode.pause, hloop]

theorem unpause_abort_in_loop (rt : Runtime) (n : DockerNode)
    (pre : List (String × String)) (lbl iface : String)
    (post : List (String × String)) (e : PyErr)
    (hu : rt.unpause_resp n.container_id = .ok ())
    (hsplit : n.ports = pre ++ (lbl, iface) :: post)
    (hnd : (n.ports.map Prod.fst).Nodup)
    (hpre : ∀ p ∈ pre, rt.exec_resp (ipLinkCmd p.2 true) "bash" = .ok ())
    (hfail : rt.exec_resp (ipLinkCmd iface true) "bash" = .error e) :
    DockerNode.unpause rt n =
      (.error e, n,
        Event.unpause n.container_id ::
          ((pre.map fun p => Event.exec (ipLinkCmd p.2 true) "bash") ++
            [Event.exec (ipLinkCmd iface true) "bash"])) := by
  have hmem : ∀ p ∈ pre, p ∈ n.ports := by
    intro p hp
    rw [hsplit]
    exact List.mem_append_left _ hp
  have hlbl : n.ports.lookup lbl = some iface := by
    refine lookup_eq_of_mem hnd ?_
    rw [hsplit]
    exact List.mem_append_right _ (List.mem_cons_self _ _)
  have hpre' : ∀ l ∈ pre.map Prod.fst, ∃ ifc, n.ports.lookup l = some ifc ∧
      rt.exec_resp (ipLinkCmd ifc true) "bash" = .ok () := by
    intro l hl
    obtain ⟨p, hp, hpe⟩ := List.mem_map.mp hl
    refine ⟨p.2, ?_, hpre p hp⟩
    rw [← hpe]
    exact lookup_eq_of_mem hnd (by simpa using hmem p hp)
  have hloop := portsLoop_abort_aux rt true n lbl iface e hlbl hfail
    (pre.map Prod.fst) (post.map Prod.fst) hpre'
  have hsplit' : n.ports.map Prod.fst =
      pre.map Prod.fst ++ lbl :: post.map Prod.fst := by
    rw [hsplit]
    simp
  rw [← hsplit'] at hloop
  have hmap : (pre.map Prod.fst).map
      (fun l =>
        Event.exec (ipLinkCmd ((n.ports.lookup l).getD "") true) "bash") =
      pre.map fun p => Event.exec (ipLinkCmd p.2 true) "bash" := by
    rw [List.map_map]
    refine List.map_congr_left ?_
    intro p hp
    simp [lookup_eq_of_mem hnd (by simpa using hmem p hp)]
  rw [hmap] at hloop
  simp only [DockerNode.unpause, hu, hloop]

/-- C8: every failure of a runtime or shell call is returned to the
caller unmodified (the very same error value), and every multi-step
operation aborts at the first failing call, its trace ending there and
the node state being that of the last successful step: this covers each
step of construction, start (start and inspect), stop (stop, wait and
remove), pause (any exec inside its loop, with the runtime pause then
never attempted, and the pause call itself), unpause (the unpause call
and any exec inside its loop) and port_state. -/
theorem failures_propagate_unmodified (rt : Runtime) (n : DockerNode)
    (e : PyErr) :
    (∀ identifier image command binds network_mode instance_id,
      rt.create_container_resp image command
          (identifier ++ "_" ++ toString instance_id) true true
          ⟨true, network_mode, binds⟩ = .error e →
      (DockerNode.init rt identifier image command binds network_mode
        instance_id).1 = .error e) ∧
    (rt.start_resp n.container_id = .error e →
      DockerNode.start rt n = (.error e, n, [.start n.container_id])) ∧
    (rt.start_resp n.container_id = .ok () →
      rt.inspect_pid n.container_id = .error e →
      DockerNode.start rt n =
        (.error e, n, [.start n.container_id, .inspect n.container_id])) ∧
    (rt.stop_resp n.container_id = .error e →
      DockerNode.stop rt n = (.error e, n, [.stop n.container_id])) ∧
    (rt.stop_resp n.container_id = .ok () →
      rt.wait_resp n.container_id = .error e →
      DockerNode.stop rt n =
        (.error e, n, [.stop n.container_id, .wait n.container_id])) ∧
    (rt.stop_resp n.container_id = .ok () →
      rt.wait_resp n.container_id = .ok () →
      rt.remove_resp n.container_id = .error e →
      DockerNode.stop rt n =
        (.error e, n,
          [.stop n.container_id, .wait n.container_id,
           .remove n.container_id])) ∧
    (n.ports = [] → rt.pause_resp n.container_id = .error e →
      DockerNode.pause rt n = (.error e, n, [.pause n.container_id])) ∧
    ((n.ports.map Prod.fst).Nodup →
      (∀ c s, rt.exec_resp c s = .ok ()) →
      rt.pause_resp n.container_id = .error e →
      DockerNode.pause rt n =
        (.error e, n,
          (n.ports.map fun p => Event.exec (ipLinkCmd p.2 false) "bash") ++
            [.pause n.container_id])) ∧
    (∀ pre lbl iface post, n.ports = pre ++ (lbl, iface) :: post →
      (n.ports.map Prod.fst).Nodup →
      (∀ p ∈ pre, rt.exec_resp (ipLinkCmd p.2 false) "bash" = .ok ()) →
      rt.exec_resp (ipLinkCmd iface false) "bash" = .error e →
      DockerNode.pause rt n =
        (.error e, n,
          (pre.map fun p => Event.exec (ipLinkCmd p.2 false) "bash") ++
            [Event.exec (ipLinkCmd iface false) "bash"])) ∧
    (rt.unpause_resp n.container_id = .error e →
      DockerNode.unpause rt n = (.error e, n, [.unpause n.container_id])) ∧
    (∀ pre lbl iface post, rt.unpause_resp n.container_id = .ok () →
      n.ports = pre ++ (lbl, iface) :: post →
      (n.ports.map Prod.fst).Nodup →
      (∀ p ∈ pre, rt.exec_resp (ipLinkCmd p.2 true) "bash" = .ok ()) →
      rt.exec_resp (ipLinkCmd iface true) "bash" = .error e →
      DockerNode.unpause rt n =
        (.error e, n,
          Event.unpause n.container_id ::
            ((pre.map fun p => Event.exec (ipLinkCmd p.2 true) "bash") ++
              [Event.exec (ipLinkCmd iface true) "bash"]))) ∧
    (∀ lbl iface st, n.ports.lookup lbl = some iface →
      rt.exec_resp (ipLinkCmd iface st) "bash" = .error e →
      DockerNode.port_state rt n lbl st =
        (.error e, n, [.exec (ipLinkCmd iface st) "bash"])) := by
  refine ⟨?_, ?_, ?_, ?_, ?_, ?_, ?_, ?_, ?_, ?_, ?_, ?_⟩
  · intro identifier image command binds network_mode instance_id hc
    simp [DockerNode.init, hc]
  · intro h
    simp [DockerNode.start, h]
  · intro h1 h2
    simp [DockerNode.start, h1, h2]
  · intro h
    simp [DockerNode.stop, h]
  · intro h1 h2
    simp [DockerNode.stop, h1, h2]
  · intro h1 h2 h3
    simp [DockerNode.stop, h1, h2, h3]
  · intro hports h
    simp [DockerNode.pause, hports, portsLoop, h]
  · intro hnd hex hp
    have htr := portsLoop_trace rt false hex (n.ports.map Prod.fst) n
      (ports_lookup_isSome n hnd)
    rw [ports_map_lookup_eq n false hnd] at htr
    simp only [DockerNode.pause, htr]
    simp [hp]
  · intro pre lbl iface post hsplit hnd hpre hfail
    exact pause_abort_in_loop rt n pre lbl iface post e hsplit hnd hpre hfail
  · intro h
    simp [DockerNode.unpause, h]
  · intro pre lbl iface post hu hsplit hnd hpre hfail
    exact unpause_abort_in_loop rt n pre lbl iface post e hu hsplit hnd
      hpre hfail
  · intro lbl iface st h1 h2
    simp [DockerNode.port_state, h1, h2]

/-- C9: no operation after construction reassigns `container_id`,
`image`, `command` or `host_config` — whatever the runtime responses,
the node state after `start`, `stop`, `pause`, `unpause`, `port_state`
and the notify hooks carries the same values of those fields. -/
theorem immutable_fields_frame (rt : Runtime) (n : DockerNode) :
    unchangedConfig n (DockerNode.start rt n).2.1 ∧
    unchangedConfig n (DockerNode.stop rt n).2.1 ∧
    unchangedConfig n (DockerNode.pause rt n).2.1 ∧
    unchangedConfig n (DockerNode.unpause rt n).2.1 ∧
    (∀ lbl st, unchangedConfig n (DockerNode.port_state rt n lbl st).2.1) ∧
    (∀ node bp, (DockerNode.notify_add_biport n node bp).2 = n) ∧
    (∀ nodeport bilink, DockerNode.notify_add_bilink n nodeport bilink = n) ∧
    DockerNode.notify_post_build n = n := by
  refine ⟨?_, ?_, ?_, ?_, ?_, fun _ _ => rfl, fun _ _ => rfl, rfl⟩
  · unfold DockerNode.start unchangedConfig
    split
    · exact ⟨rfl, rfl, rfl, rfl⟩
    · split <;> exact ⟨rfl, rfl, rfl, rfl⟩
  · rw [unchangedConfig, stop_node_eq]
    exact ⟨rfl, rfl, rfl, rfl⟩
  · rw [unchangedConfig, pause_node_eq]
    exact ⟨rfl, rfl, rfl, rfl⟩
  · rw [unchangedConfig, unpause_node_eq]
    exact ⟨rfl, rfl, rfl, rfl⟩
  · intro lbl st
    rw [unchangedConfig, port_state_node_eq]
    exact ⟨rfl, rfl, rfl, rfl⟩

/-- C10: `stop` leaves `pid` unchanged whatever the runtime responses,
and so do `pause`, `unpause`, `port_state` and the notify hooks — among
the operations available after construction only `start` writes `pid`. -/
theorem pid_only_written_by_start (rt : Runtime) (n : DockerNode) :
    (DockerNode.stop rt n).2.1.pid = n.pid ∧
    (DockerNode.pause rt n).2.1.pid = n.pid ∧
    (DockerNode.unpause rt n).2.1.pid = n.pid ∧
    (∀ lbl st, (DockerNode.port_state rt n lbl st).2.1.pid = n.pid) ∧
    (∀ node bp, ((DockerNode.notify_add_biport n node bp).2).pid = n.pid) ∧
    (∀ nodeport bilink,
      (DockerNode.notify_add_bilink n nodeport bilink).pid = n.pid) ∧
    (DockerNode.notify_post_build n).pid = n.pid := by
  refine ⟨?_, ?_, ?_, ?_, fun _ _ => rfl, fun _ _ => rfl, rfl⟩
  · rw [stop_node_eq]
  · rw [pause_node_eq]
  · rw [unpause_node_eq]
  · intro lbl st
    rw [port_state_node_eq]

/-- Witness for C1 at a biport with a metadata label and one without. -/
theorem notify_add_biport_label_or_identifier_witness :
    (DockerNode.notify_add_biport n0 sn0 bpLabeled).1 = "eth9" ∧
    (DockerNode.notify_add_biport n0 sn0 bpPlain).1 = "p7" ∧
    (DockerNode.notify_add_biport n0 sn0 bpLabeled).2 = n0 :=
  ⟨(notify_add_biport_label_or_identifier n0 sn0 bpLabeled).1 "eth9" rfl,
   (notify_add_biport_label_or_identifier n0 sn0 bpPlain).2.1 rfl,
   (notify_add_biport_label_or_identifier n0 sn0 bpLabeled).2.2⟩

/-- Witness for C2 at runtimes where every call succeeds, where remove
fails, where wait fails and where stop fails. -/
theorem stop_issues_stop_wait_remove_in_order_witness :
    DockerNode.stop rtOk n0 =
      (.ok (), n0, [.stop "cid0", .wait "cid0", .remove "cid0"]) ∧
    DockerNode.stop rtRemoveFail n0 =
      (.error errBoom, n0, [.stop "cid0", .wait "cid0", .remove "cid0"]) ∧
    DockerNode.stop rtWaitFail n0 =
      (.error errBoom, n0, [.stop "cid0", .wait "cid0"]) ∧
    DockerNode.stop rtFail n0 = (.error errBoom, n0, [.stop "cid0"]) :=
  ⟨(stop_issues_stop_wait_remove_in_order rtOk n0).1 rfl rfl rfl,
   (stop_issues_stop_wait_remove_in_order rtRemoveFail n0).2.1 errBoom
     rfl rfl rfl,
   (stop_issues_stop_wait_remove_in_order rtWaitFail n0).2.2.1 errBoom rfl rfl,
   (stop_issues_stop_wait_remove_in_order rtFail n0).2.2.2 errBoom rfl⟩

/-- Witness for C3 at the two-port sample node. -/
theorem pause_downs_all_ports_before_pause_witness :
    DockerNode.pause rtOk n0 =
      (.ok (), n0,
        [Event.exec "ip link set dev eth1 down" "bash",
         Event.exec "ip link set dev eth2 down" "bash",
         Event.pause "cid0"]) :=
  pause_downs_all_ports_before_pause rtOk n0 (by decide) (fun _ _ => rfl) rfl

/-- Witness for C4 at the two-port sample node. -/
theorem unpause_unpauses_before_upping_ports_witness :
    DockerNode.unpause rtOk n0 =
      (.ok (), n0,
        [Event.unpause "cid0",
         Event.exec "ip link set dev eth1 up" "bash",
         Event.exec "ip link set dev eth2 up" "bash"]) :=
  unpause_unpauses_before_upping_ports rtOk n0 (by decide) (fun _ _ => rfl) rfl

/-- Witness for C5 at a registered label and at an unknown label. -/
theorem port_state_single_command_or_lookup_failure_witness :
    (DockerNode.port_state rtOk n0 "p1" true).2.2 =
      [Event.exec "ip link set dev eth1 up" "bash"] ∧
    (DockerNode.port_state rtOk n0 "p1" false).2.2 =
      [Event.exec "ip link set dev eth1 down" "bash"] ∧
    DockerNode.port_state rtOk n0 "zz" true =
      (.error (.keyError "zz"), n0, []) :=
  ⟨((port_state_single_command_or_lookup_failure rtOk n0 "p1").1 "eth1" rfl).1,
   ((port_state_single_command_or_lookup_failure rtOk n0 "p1").1 "eth1" rfl).2,
   ((port_state_single_command_or_lookup_failure rtOk n0 "zz").2 rfl).1⟩

/-- Witness for C6 at the sample node and the all-success runtime. -/
theorem start_records_inspected_pid_witness :
    DockerNode.start rtOk n0 =
      (.ok (), { n0 with pid := some 4242 },
        [Event.start "cid0", Event.inspect "cid0"]) :=
  start_records_inspected_pid rtOk n0 4242 rfl rfl

/-- Witness for C7 at concrete construction arguments. -/
theorem construction_creates_container_without_start_witness :
    DockerNode.init rtOk "n1" "ubuntu" "bash" none "none" 7 =
      (.ok ⟨"n1", "ubuntu", "bash", "cid0", none, ⟨true, "none", none⟩, []⟩,
        [Event.create_host_config true "none" none,
         Event.create_container "ubuntu" "bash" "n1_7" true true
           ⟨true, "none", none⟩]) ∧
    Event.start "cid0" ∉
      (DockerNode.init rtOk "n1" "ubuntu" "bash" none "none" 7).2 :=
  ⟨(construction_creates_container_without_start rtOk "n1" "ubuntu" "bash"
      none "none" 7 "cid0" rfl).1,
   (construction_creates_container_without_start rtOk "n1" "ubuntu" "bash"
      none "none" 7 "cid0" rfl).2 "cid0"⟩

/-- Witness for C8 at runtimes failing at each step: the create, start,
inspect, stop, wait, remove, pause and unpause calls, an exec inside the
pause loop, an exec inside the unpause loop, and the exec of a direct
port_state call. -/
theorem failures_propagate_unmodified_witness :
    (DockerNode.init rtFail "n1" "ubuntu" "bash" none "none" 7).1 =
      .error errBoom ∧
    DockerNode.start rtFail n0 = (.error errBoom, n0, [.start "cid0"]) ∧
    DockerNode.start rtInspectFail n0 =
      (.error errBoom, n0, [.start "cid0", .inspect "cid0"]) ∧
    DockerNode.stop rtFail n0 = (.error errBoom, n0, [.stop "cid0"]) ∧
    DockerNode.stop rtWaitFail n0 =
      (.error errBoom, n0, [.stop "cid0", .wait "cid0"]) ∧
    DockerNode.stop rtRemoveFail n0 =
      (.error errBoom, n0, [.stop "cid0", .wait "cid0", .remove "cid0"]) ∧
    DockerNode.pause rtPauseFail nEmpty =
      (.error errBoom, nEmpty, [.pause "cid0"]) ∧
    DockerNode.pause rtPauseFail n0 =
      (.error errBoom, n0,
        [.exec "ip link set dev eth1 down" "bash",
         .exec "ip link set dev eth2 down" "bash", .pause "cid0"]) ∧
    DockerNode.pause rtExecEth2Fail n0 =
      (.error errBoom, n0,
        [.exec "ip link set dev eth1 down" "bash",
         .exec "ip link set dev eth2 down" "bash"]) ∧
    DockerNode.unpause rtFail n0 =
      (.error errBoom, n0, [.unpause "cid0"]) ∧
    DockerNode.unpause rtExecEth2Fail n0 =
      (.error errBoom, n0,
        [.unpause "cid0", .exec "ip link set dev eth1 up" "bash",
         .exec "ip link set dev eth2 up" "bash"]) ∧
    DockerNode.port_state rtFail n0 "p1" true =
      (.error errBoom, n0, [.exec "ip link set dev eth1 up" "bash"]) :=
  ⟨(failures_propagate_unmodified rtFail n0 errBoom).1 "n1" "ubuntu" "bash"
      none "none" 7 rfl,
   (failures_propagate_unmodified rtFail n0 errBoom).2.1 rfl,
   (failures_propagate_unmodified rtInspectFail n0 errBoom).2.2.1 rfl rfl,
   (failures_propagate_unmodified rtFail n0 errBoom).2.2.2.1 rfl,
   (failures_propagate_unmodified rtWaitFail n0 errBoom).2.2.2.2.1 rfl rfl,
   (failures_propagate_unmodified rtRemoveFail n0 errBoom).2.2.2.2.2.1
      rfl rfl rfl,
   (failures_propagate_unmodified rtPauseFail nEmpty errBoom).2.2.2.2.2.2.1
      rfl rfl,
   (failures_propagate_unmodified rtPauseFail n0 errBoom).2.2.2.2.2.2.2.1
      (by decide) (fun _ _ => rfl) rfl,
   (failures_propagate_unmodified rtExecEth2Fail n0 errBoom).2.2.2.2.2.2.2.2.1
      [("p1", "eth1")] "p2" "eth2" [] rfl (by decide)
      (by
        intro p hp
        simp only [List.mem_singleton] at hp
        subst hp
        rfl)
      rfl,
   (failures_propagate_unmodified rtFail n0 errBoom).2.2.2.2.2.2.2.2.2.1 rfl,
   (failures_propagate_unmodified rtExecEth2Fail n0
        errBoom).2.2.2.2.2.2.2.2.2.2.1
      [("p1", "eth1")] "p2" "eth2" [] rfl rfl (by decide)
      (by
        intro p hp
        simp only [List.mem_singleton] at hp
        subst hp
        rfl)
      rfl,
   (failures_propagate_unmodified rtFail n0 errBoom).2.2.2.2.2.2.2.2.2.2.2
      "p1" "eth1" true rfl rfl⟩
